import Mathlib

/-!
Verification of the financial-calculator notebook (`2bond&stock.ipynb`).

The notebook's functions compute with Python floats; we embed them shallowly
over an arbitrary linear ordered field `K` (instantiated at `ℚ` for concrete
evaluation), so arithmetic is exact.  Fallible code (the frequency validation,
which `raise`s `ValueError` in Python) is embedded with `Except String`.
The shared numerical root-finder is `scipy.optimize.newton`, which is not part
of the repository; it is modelled from the spec (see `secantSolve`).
-/

deriving instance DecidableEq for Except

namespace BondStock

variable {K : Type} [LinearOrderedField K]

/-- Error message raised by `bond_value` and `calculate_realized_yield` on an
unrecognized frequency (the Python `ValueError`). -/
def freqErrMsg : String := "Frequency must be annual or semi-annual."

/-- Error message raised by `pv_stock_constant_growth` on an unrecognized
payment frequency. -/
def payFreqErrMsg : String :=
  "Payment frequency must be annual, semi-annual, or quarter."

/-- Present value of a bond (notebook cell 1, `bond_value`).
`range(1, total_periods + 1)` is embedded as `Finset.range total_periods`
with exponent `t + 1`. -/
def bond_value (face_value coupon_rate : K) (years_to_maturity : ℕ) (ytm : K)
    (frequency : String) : Except String K :=
  if frequency ∉ ["annual", "semi-annual"] then
    .error freqErrMsg
  else
    let periods_per_year : ℕ := if frequency = "annual" then 1 else 2
    let total_periods : ℕ := years_to_maturity * periods_per_year
    let rate_per_period : K := ytm / (periods_per_year : K)
    let coupon_payment : K := coupon_rate * face_value / (periods_per_year : K)
    let coupon_pv : K :=
      ∑ t in Finset.range total_periods, coupon_payment / (1 + rate_per_period) ^ (t + 1)
    let face_value_pv : K := face_value / (1 + rate_per_period) ^ total_periods
    .ok (coupon_pv + face_value_pv)

/-- Modelled from the spec: the shared iterative root-finder
(`scipy.optimize.newton`, an external library, absent from the repository).
Per spec sections 4.2 and 7 it is a derivative-based (secant) iteration that
either converges within its iteration/tolerance budget and returns the root,
or surfaces a distinct non-convergence error.  The residual is
`Except`-valued so that an error raised while evaluating it (e.g. the
frequency `ValueError` from `bond_value`) propagates to the caller. -/
def secantSolve (f : K → Except String K) (tol : K) :
    K → K → ℕ → Except String K
  | _, _, 0 => .error "Failed to converge."
  | x0, x1, fuel + 1 =>
    match f x0 with
    | .error e => .error e
    | .ok f0 =>
      match f x1 with
      | .error e => .error e
      | .ok f1 =>
        if f1 = f0 then
          .error "Derivative was zero."
        else
          let x2 := x1 - f1 * (x1 - x0) / (f1 - f0)
          if |x2 - x1| ≤ tol then
            .ok x2
          else
            secantSolve f tol x1 x2 fuel

/-- Modelled from the spec: convergence tolerance of the root-finder
(representative of scipy's default `tol=1.48e-8`). -/
def newtonTol : K := 1 / 100000000

/-- Modelled from the spec: iteration budget of the root-finder
(scipy's default `maxiter=50`). -/
def newtonMaxIter : ℕ := 50

/-- Modelled from the spec: second starting point of the secant iteration,
derived from the initial guess (as scipy does with a relative perturbation). -/
def secantSecond (x0 : K) : K :=
  x0 * (1 + 1 / 10000) + (if 0 ≤ x0 then (1 : K) / 10000 else -(1 / 10000))

/-- Modelled from the spec: top-level entry of the root-finder, taking a
scalar residual and an initial guess. -/
def newtonSolve (f : K → Except String K) (guess : K) : Except String K :=
  secantSolve f newtonTol guess (secantSecond guess) newtonMaxIter

/-- A value `v` is a properly converged output of the secant iteration on
residual `f`: it is the secant update of two points whose residuals both
evaluated successfully and differ, and it passed the tolerance test.  Every
`.ok` result of `secantSolve` satisfies this, so a non-converged iterate is
never returned as a result. -/
def ConvergedStep (f : K → Except String K) (tol v : K) : Prop :=
  ∃ a b fa fb, f a = .ok fa ∧ f b = .ok fb ∧ fb ≠ fa ∧
    v = b - fb * (b - a) / (fb - fa) ∧ |v - b| ≤ tol

/-- The residual closed over by `calculate_ytm` (the `lambda` in notebook
cell 2): `bond_price - bond_value(face_value, coupon_rate,
years_to_maturity, ytm, frequency)`. -/
def ytmResidual (bond_price face_value coupon_rate : K) (years_to_maturity : ℕ)
    (frequency : String) (ytm : K) : Except String K :=
  (bond_value face_value coupon_rate years_to_maturity ytm frequency).map
    (fun bv => bond_price - bv)

/-- Yield to maturity of a bond (notebook cell 2, `calculate_ytm`): solves
the residual with the shared root-finder seeded at `guess`. -/
def calculate_ytm (bond_price face_value coupon_rate : K)
    (years_to_maturity : ℕ) (frequency : String) (guess : K) :
    Except String K :=
  newtonSolve (ytmResidual bond_price face_value coupon_rate years_to_maturity frequency)
    guess

/-- The residual closed over by `calculate_realized_yield` (the `lambda` in
notebook cell 3). -/
def realizedResidual (initial_bond_price future_bond_price_at_sale
    coupon_payment : K) (periods_per_year holding_periods : ℕ) (r_ytm : K) : K :=
  initial_bond_price -
    (∑ t in Finset.range holding_periods,
      coupon_payment / (1 + r_ytm / (periods_per_year : K)) ^ (t + 1)) -
    future_bond_price_at_sale / (1 + r_ytm / (periods_per_year : K)) ^ holding_periods

/-- Realized yield of holding a bond (notebook cell 3,
`calculate_realized_yield`). -/
def calculate_realized_yield (face_value coupon_rate current_ytm : K)
    (years_to_maturity holding_period : ℕ) (future_ytm : K)
    (frequency : String) : Except String K :=
  if frequency ∉ ["annual", "semi-annual"] then
    .error freqErrMsg
  else
    match bond_value face_value coupon_rate years_to_maturity current_ytm frequency with
    | .error e => .error e
    | .ok initial_bond_price =>
      let remaining_years_to_maturity := years_to_maturity - holding_period
      match bond_value face_value coupon_rate remaining_years_to_maturity future_ytm
          frequency with
      | .error e => .error e
      | .ok future_bond_price_at_sale =>
        let periods_per_year : ℕ := if frequency = "annual" then 1 else 2
        let holding_periods := holding_period * periods_per_year
        let coupon_payment := coupon_rate * face_value / (periods_per_year : K)
        newtonSolve
          (fun r_ytm => .ok (realizedResidual initial_bond_price
            future_bond_price_at_sale coupon_payment periods_per_year holding_periods
            r_ytm))
          current_ytm

/-- Present value of a stock with constant growth (notebook cell 5,
`pv_stock_constant_growth`). -/
def pv_stock_constant_growth (dividend growth_rate discount_rate : K)
    (pay_now : Bool) (payment_frequency : String) : Except String K :=
  if payment_frequency ∉ ["annual", "semi-annual", "quarter"] then
    .error payFreqErrMsg
  else
    let periods_per_year : K :=
      if payment_frequency = "annual" then 1
      else if payment_frequency = "semi-annual" then 2
      else 4
    let growth_rate' := growth_rate / periods_per_year
    let discount_rate' := discount_rate / periods_per_year
    if pay_now then
      .ok (dividend * (1 + growth_rate') / (discount_rate' - growth_rate'))
    else
      .ok (dividend / (discount_rate' - growth_rate'))

/-- Loop of `pv_stock_varying_growth_rate` (notebook cell 6): `t` is the
1-based period index of the head of the list, `last_dividend` the running
dividend, and contributions are accumulated with `pv +=`. -/
def pvVaryingGo (discount_rate : K) (year_start_infinite_growth : ℕ) :
    K → ℕ → List K → K
  | _, _, [] => 0
  | last_dividend, t, g :: gs =>
    let last_dividend' := last_dividend * (1 + g)
    (if t < year_start_infinite_growth then
      last_dividend' / (1 + discount_rate) ^ t
    else
      last_dividend' / (discount_rate - g) / (1 + discount_rate) ^ (t - 1)) +
    pvVaryingGo discount_rate year_start_infinite_growth last_dividend' (t + 1) gs

/-- Present value of a stock with varying growth rates (notebook cell 6,
`pv_stock_varying_growth_rate`). -/
def pv_stock_varying_growth_rate (last_dividend discount_rate : K)
    (growth_rates : List K) (year_start_infinite_growth : ℕ) : K :=
  pvVaryingGo discount_rate year_start_infinite_growth last_dividend 1 growth_rates

/-- Modelled from the spec claim wording for comparison: the
"last qualifying period wins" reading of `pv_stock_varying_growth_rate`, in
which each perpetuity-branch contribution OVERWRITES the previously
accumulated perpetuity value instead of being added to it. -/
def pvVaryingLastWinsGo (discount_rate : K) (year_start_infinite_growth : ℕ) :
    K → ℕ → K → K → List K → K
  | _, _, pv, perp, [] => pv + perp
  | last_dividend, t, pv, perp, g :: gs =>
    let last_dividend' := last_dividend * (1 + g)
    if t < year_start_infinite_growth then
      pvVaryingLastWinsGo discount_rate year_start_infinite_growth last_dividend'
        (t + 1) (pv + last_dividend' / (1 + discount_rate) ^ t) perp gs
    else
      pvVaryingLastWinsGo discount_rate year_start_infinite_growth last_dividend'
        (t + 1) pv
        (last_dividend' / (discount_rate - g) / (1 + discount_rate) ^ (t - 1)) gs

/-- Modelled from the spec claim wording: the "last qualifying period wins"
variant of `pv_stock_varying_growth_rate`. -/
def pv_stock_varying_last_wins (last_dividend discount_rate : K)
    (growth_rates : List K) (year_start_infinite_growth : ℕ) : K :=
  pvVaryingLastWinsGo discount_rate year_start_infinite_growth last_dividend 1 0 0
    growth_rates

/-- Optimal two-asset weight allocation (notebook cell 10,
`optimal_weight_allocation`). -/
def optimal_weight_allocation (r1 r2 sigma1 sigma2 rho rf : K) : K × K :=
  let rp1 := r1 - rf
  let rp2 := r2 - rf
  let sigma12 := sigma1 * sigma2 * rho
  let w1 := (sigma2 ^ 2 * rp1 - sigma12 * rp2) /
    (sigma1 ^ 2 * rp2 + sigma2 ^ 2 * rp1 - sigma12 * (rp1 + rp2))
  (w1, 1 - w1)

/-! ### Shared helper lemmas -/

/-- A sum over the 1-based periods `Icc 1 N` (the spec's `Σ_t=1..N`) equals the
0-based sum the code computes via `range(1, N + 1)`. -/
lemma sum_Icc_one_eq_sum_range (f : ℕ → K) : ∀ N : ℕ,
    ∑ t in Finset.Icc 1 N, f t = ∑ t in Finset.range N, f (t + 1)
  | 0 => by simp
  | N + 1 => by
    rw [Finset.sum_Icc_succ_top (by omega : 1 ≤ N + 1), Finset.sum_range_succ,
      sum_Icc_one_eq_sum_range f N]

/-- On a recognized frequency, `bond_value` returns the coupon/principal
present-value formula, with `p` the number of periods per year. -/
lemma bond_value_valid {freq : String} {p : ℕ}
    (hfreq : freq = "annual" ∧ p = 1 ∨ freq = "semi-annual" ∧ p = 2)
    (F c : K) (n : ℕ) (y : K) :
    bond_value F c n y freq =
      .ok ((∑ t in Finset.range (n * p), c * F / (p : K) / (1 + y / (p : K)) ^ (t + 1)) +
        F / (1 + y / (p : K)) ^ (n * p)) := by
  have hsemi : ("semi-annual" : String) ≠ "annual" := by decide
  rcases hfreq with ⟨hf, hp⟩ | ⟨hf, hp⟩ <;> subst hf <;> subst hp <;>
    simp [bond_value, hsemi]

/-- The bond present-value formula is strictly decreasing in the period rate
as long as `1 + rate` stays positive, the face value is positive, the coupon
payment is nonnegative and there is at least one period. -/
lemma bondSum_strictAnti (cp F : K) {N : ℕ} (hN : N ≠ 0) (hF : 0 < F)
    (hcp : 0 ≤ cp) {r1 r2 : K} (h1 : 0 < 1 + r1) (h12 : r1 < r2) :
    (∑ t in Finset.range N, cp / (1 + r2) ^ (t + 1)) + F / (1 + r2) ^ N <
      (∑ t in Finset.range N, cp / (1 + r1) ^ (t + 1)) + F / (1 + r1) ^ N := by
  have h2 : (0 : K) < 1 + r2 := by linarith
  have hb : 1 + r1 < 1 + r2 := by linarith
  refine add_lt_add_of_le_of_lt (Finset.sum_le_sum fun t _ => ?_) ?_
  · exact div_le_div_of_nonneg_left hcp (pow_pos h1 (t + 1))
      (pow_le_pow_left₀ h1.le hb.le (t + 1))
  · exact div_lt_div_of_pos_left hF (pow_pos h1 N) (pow_lt_pow_left₀ hb h1.le hN)

/-- The secant iteration propagates an error raised while evaluating the
residual at its first point (before any solving work). -/
lemma secantSolve_error_start {f : K → Except String K} {tol x0 x1 : K}
    {e : String} (h : f x0 = .error e) {fuel : ℕ} (hf : fuel ≠ 0) :
    secantSolve f tol x0 x1 fuel = .error e := by
  cases fuel with
  | zero => exact absurd rfl hf
  | succ n => unfold secantSolve; rw [h]

/-- On a residual that is constant (in particular on both starting points),
the secant iteration fails with the zero-derivative error. -/
lemma secantSolve_const {f : K → Except String K} {c : K}
    (h : ∀ x, f x = .ok c) (tol x0 x1 : K) {fuel : ℕ} (hf : fuel ≠ 0) :
    secantSolve f tol x0 x1 fuel = .error "Derivative was zero." := by
  cases fuel with
  | zero => exact absurd rfl hf
  | succ n =>
    unfold secantSolve
    rw [h x0, h x1]
    show (if c = c then Except.error "Derivative was zero." else _) = _
    rw [if_pos rfl]

/-! ### Claim C1 -/

/-- Claim C1: for a positive face value, nonnegative coupon rate, positive
integer maturity, rate per period distinct from `-1`, and a recognized
frequency (`p = 1` for annual, `p = 2` for semi-annual), `bond_value` returns
`Σ_t=1..totalPeriods couponPayment / (1+ratePerPeriod)^t
 + faceValue / (1+ratePerPeriod)^totalPeriods`
with `totalPeriods = yearsToMaturity * p`, `ratePerPeriod = ytm / p` and
`couponPayment = couponRate * faceValue / p`. -/
theorem C1_bond_value_closed_form (F c : K) (n : ℕ) (y : K) (freq : String)
    (p : ℕ) (hfreq : freq = "annual" ∧ p = 1 ∨ freq = "semi-annual" ∧ p = 2)
    (hF : 0 < F) (hc : 0 ≤ c) (hn : 1 ≤ n) (hr : 1 + y / (p : K) ≠ 0) :
    bond_value F c n y freq =
      .ok ((∑ t in Finset.Icc 1 (n * p), c * F / (p : K) / (1 + y / (p : K)) ^ t) +
        F / (1 + y / (p : K)) ^ (n * p)) := by
  rw [bond_value_valid hfreq, sum_Icc_one_eq_sum_range]

/-- Concrete instance of `C1_bond_value_closed_form`. -/
theorem C1_witness :
    bond_value (1000 : ℚ) (1 / 10) 1 (1 / 10) "annual" =
      .ok ((∑ t in Finset.Icc 1 (1 * 1),
          (1 / 10 : ℚ) * 1000 / ((1 : ℕ) : ℚ) / (1 + (1 / 10 : ℚ) / ((1 : ℕ) : ℚ)) ^ t) +
        1000 / (1 + (1 / 10 : ℚ) / ((1 : ℕ) : ℚ)) ^ (1 * 1)) :=
  C1_bond_value_closed_form 1000 (1 / 10) 1 (1 / 10) "annual" 1
    (Or.inl ⟨rfl, rfl⟩) (by norm_num) (by norm_num) le_rfl (by norm_num)

/-! ### Claim C9 -/

/-- Claim C9: with `years_to_maturity = 0` and a recognized frequency,
`bond_value` returns exactly the face value: the coupon sum is empty and the
face value is discounted over zero periods. -/
theorem C9_bond_value_zero_maturity (F c y : K) (freq : String) (p : ℕ)
    (hfreq : freq = "annual" ∧ p = 1 ∨ freq = "semi-annual" ∧ p = 2)
    (hr : 1 + y / (p : K) ≠ 0) :
    bond_value F c 0 y freq = .ok F := by
  rw [bond_value_valid hfreq]
  simp

/-- Concrete instance of `C9_bond_value_zero_maturity`. -/
theorem C9_witness : bond_value (1000 : ℚ) (12 / 100) 0 (5 : ℚ) "semi-annual" = .ok 1000 :=
  C9_bond_value_zero_maturity 1000 (12 / 100) 5 "semi-annual" 2
    (Or.inr ⟨rfl, rfl⟩) (by norm_num)

/-! ### Claim C4 -/

/-- Claim C4 fails as stated: with `ytm` allowed to be ANY real, `bond_value`
is not monotonically non-increasing in `ytm`.  At face value `1000`, coupon
rate `1/10`, one year to maturity, annual frequency, the yields
`y1 = -3 ≤ y2 = -1/2` give bond values `-550` and `2200`, and `-550 < 2200`:
the value at the smaller yield is strictly below the value at the larger
yield. -/
theorem C4_counterexample :
    (0 : ℚ) < 1000 ∧ (0 : ℚ) ≤ 1 / 10 ∧ (1 : ℕ) ≤ 1 ∧ (-3 : ℚ) ≤ -1 / 2 ∧
    bond_value (1000 : ℚ) (1 / 10) 1 (-3) "annual" = .ok (-550) ∧
    bond_value (1000 : ℚ) (1 / 10) 1 (-1 / 2) "annual" = .ok 2200 ∧
    ¬ ((2200 : ℚ) ≤ -550) := by
  refine ⟨by norm_num, by norm_num, le_rfl, by norm_num, ?_, ?_, by norm_num⟩ <;>
    norm_num [bond_value, Finset.sum_range_succ]

/-- Claim C4, amended: the monotonicity additionally needs the rate per period
at the smaller yield to satisfy `1 + y1 / p > 0` (which the counterexample
violates); with that restriction, `bond_value` is monotonically non-increasing
in `ytm` for every valid input. -/
theorem C4_bond_value_antitone (F c : K) (n p : ℕ) (freq : String)
    (y1 y2 v1 v2 : K)
    (hfreq : freq = "annual" ∧ p = 1 ∨ freq = "semi-annual" ∧ p = 2)
    (hF : 0 < F) (hc : 0 ≤ c) (hn : 1 ≤ n)
    (hrate : 0 < 1 + y1 / (p : K)) (hy : y1 ≤ y2)
    (h1 : bond_value F c n y1 freq = .ok v1)
    (h2 : bond_value F c n y2 freq = .ok v2) : v2 ≤ v1 := by
  have hp : 0 < p := by rcases hfreq with ⟨_, hp⟩ | ⟨_, hp⟩ <;> omega
  have hpK : (0 : K) < (p : K) := by exact_mod_cast hp
  rw [bond_value_valid hfreq] at h1 h2
  have hv1 := Except.ok.inj h1
  have hv2 := Except.ok.inj h2
  rcases eq_or_lt_of_le hy with rfl | hlt
  · rw [← hv1, ← hv2]
  · rw [← hv1, ← hv2]
    refine (bondSum_strictAnti (c * F / (p : K)) F ?_ hF ?_ hrate ?_).le
    · exact Nat.mul_ne_zero (by omega) (by omega)
    · exact div_nonneg (mul_nonneg hc hF.le) hpK.le
    · exact div_lt_div_of_pos_right hlt hpK

/-- Concrete instance of `C4_bond_value_antitone`. -/
theorem C4_witness : (2750 / 3 : ℚ) ≤ 1000 :=
  C4_bond_value_antitone 1000 (1 / 10) 1 1 "annual" (1 / 10) (2 / 10)
    1000 (2750 / 3) (Or.inl ⟨rfl, rfl⟩) (by norm_num) (by norm_num) le_rfl
    (by norm_num) (by norm_num)
    (by norm_num [bond_value, Finset.sum_range_succ])
    (by norm_num [bond_value, Finset.sum_range_succ])

/-- Every successful result of the secant iteration passed the convergence
test: a non-converged iterate is never returned. -/
lemma secantSolve_ok_converged {f : K → Except String K} {tol v : K} :
    ∀ {fuel : ℕ} {x0 x1 : K}, secantSolve f tol x0 x1 fuel = .ok v →
      ConvergedStep f tol v
  | 0, x0, x1, h => by exact absurd h (by simp [secantSolve])
  | fuel + 1, x0, x1, h => by
    unfold secantSolve at h
    split at h
    · exact absurd h (by simp)
    · next f0 hf0 =>
      split at h
      · exact absurd h (by simp)
      · next f1 hf1 =>
        split at h
        · exact absurd h (by simp)
        · next heq =>
          dsimp only at h
          split at h
          · next htol =>
            exact ⟨x0, x1, f0, f1, hf0, hf1, heq, (Except.ok.inj h).symm,
              (Except.ok.inj h) ▸ htol⟩
          · exact secantSolve_ok_converged h

/-- On a residual that never raises, the secant iteration can only fail with
one of its own two solver errors (non-convergence or zero derivative). -/
lemma secantSolve_pure_error {g : K → K} {tol : K} {e : String} :
    ∀ {fuel : ℕ} {x0 x1 : K},
      secantSolve (fun x => .ok (g x)) tol x0 x1 fuel = .error e →
      e = "Failed to converge." ∨ e = "Derivative was zero."
  | 0, x0, x1, h => by
    left
    exact (Except.error.inj h).symm
  | fuel + 1, x0, x1, h => by
    unfold secantSolve at h
    dsimp only at h
    split at h
    · next heq =>
      right
      exact (Except.error.inj h).symm
    · next heq =>
      split at h
      · exact absurd h (by simp)
      · exact secantSolve_pure_error h

/-- On a recognized frequency, `calculate_realized_yield` computes the two
bond prices and hands the pure realized-yield residual to the shared
root-finder seeded at the current yield. -/
lemma calculate_realized_yield_eq {freq : String} {p : ℕ}
    (hfreq : freq = "annual" ∧ p = 1 ∨ freq = "semi-annual" ∧ p = 2)
    (F c cy : K) (n hold : ℕ) (fy : K) :
    ∃ ip sp, bond_value F c n cy freq = .ok ip ∧
      bond_value F c (n - hold) fy freq = .ok sp ∧
      calculate_realized_yield F c cy n hold fy freq =
        newtonSolve (fun r => .ok (realizedResidual ip sp (c * F / (p : K)) p
          (hold * p) r)) cy := by
  refine ⟨_, _, bond_value_valid hfreq F c n cy,
    bond_value_valid hfreq F c (n - hold) fy, ?_⟩
  unfold calculate_realized_yield
  rcases hfreq with ⟨hf, hp⟩ | ⟨hf, hp⟩ <;> subst hf <;> subst hp
  · simp only [@bond_value_valid K _ "annual" 1 (Or.inl ⟨rfl, rfl⟩) F c]
    simp
  · simp only [@bond_value_valid K _ "semi-annual" 2 (Or.inr ⟨rfl, rfl⟩) F c]
    simp

/-! ### Claim C2 -/

/-- Claim C2: round-trip of the yield solver.  The root-finder
(`scipy.optimize.newton`) is external to the repository; per the spec it
converges to a root of the residual, so any `y` in the solver's domain
returned for the price `bond_value(..., y0)` makes the residual vanish.  For
every valid input and every such exact root `y` whose rate per period keeps
`1 + y/p` positive (the region where the pricer is monotonic, spec 4.2), `y`
recovers `y0` within the `1e-6` tolerance (indeed exactly). -/
theorem C2_calculate_ytm_round_trip (F c : K) (n p : ℕ) (freq : String)
    (y0 y price : K)
    (hfreq : freq = "annual" ∧ p = 1 ∨ freq = "semi-annual" ∧ p = 2)
    (hF : 0 < F) (hc : 0 ≤ c) (hn : 1 ≤ n)
    (h0 : 0 < 1 + y0 / (p : K)) (hy : 0 < 1 + y / (p : K))
    (hprice : bond_value F c n y0 freq = .ok price)
    (hroot : ytmResidual price F c n freq y = .ok 0) :
    |y - y0| ≤ 1 / 1000000 := by
  have hp : 0 < p := by rcases hfreq with ⟨_, hp⟩ | ⟨_, hp⟩ <;> omega
  have hpK : (0 : K) < (p : K) := by exact_mod_cast hp
  have hN : n * p ≠ 0 := Nat.mul_ne_zero (by omega) (by omega)
  have hcp : 0 ≤ c * F / (p : K) := div_nonneg (mul_nonneg hc hF.le) hpK.le
  rw [bond_value_valid hfreq] at hprice
  have hv0 := Except.ok.inj hprice
  rw [ytmResidual, bond_value_valid hfreq] at hroot
  have hvy := Except.ok.inj hroot
  dsimp only at hvy
  have hyeq : y = y0 := by
    by_contra hne
    rcases lt_or_gt_of_ne hne with hlt | hgt
    · have := bondSum_strictAnti (c * F / (p : K)) F hN hF hcp hy
        (div_lt_div_of_pos_right hlt hpK)
      rw [hv0] at this
      have : price - ((∑ t in Finset.range (n * p),
          c * F / (p : K) / (1 + y / (p : K)) ^ (t + 1)) +
            F / (1 + y / (p : K)) ^ (n * p)) < 0 := by linarith
      rw [hvy] at this
      exact absurd this (by norm_num)
    · have := bondSum_strictAnti (c * F / (p : K)) F hN hF hcp h0
        (div_lt_div_of_pos_right hgt hpK)
      rw [hv0] at this
      have : 0 < price - ((∑ t in Finset.range (n * p),
          c * F / (p : K) / (1 + y / (p : K)) ^ (t + 1)) +
            F / (1 + y / (p : K)) ^ (n * p)) := by linarith
      rw [hvy] at this
      exact absurd this (by norm_num)
  rw [hyeq, sub_self, abs_zero]
  norm_num

/-- Concrete instance of `C2_calculate_ytm_round_trip`. -/
theorem C2_witness : |(1 / 10 : ℚ) - 1 / 10| ≤ 1 / 1000000 :=
  C2_calculate_ytm_round_trip 1000 (1 / 10) 1 1 "annual" (1 / 10) (1 / 10) 1000
    (Or.inl ⟨rfl, rfl⟩) (by norm_num) (by norm_num) le_rfl (by norm_num)
    (by norm_num)
    (by norm_num [bond_value, Finset.sum_range_succ])
    (by norm_num [ytmResidual, bond_value, Finset.sum_range_succ, Except.map])

/-- On a recognized payment frequency, `pv_stock_constant_growth` returns the
growing-perpetuity formula at the per-period rates. -/
lemma pv_stock_constant_growth_valid {freq : String} {p : K}
    (hfreq : freq = "annual" ∧ p = 1 ∨ freq = "semi-annual" ∧ p = 2 ∨
      freq = "quarter" ∧ p = 4)
    (dividend g d : K) (pay_now : Bool) :
    pv_stock_constant_growth dividend g d pay_now freq =
      .ok (if pay_now then dividend * (1 + g / p) / (d / p - g / p)
        else dividend / (d / p - g / p)) := by
  have h1 : ("semi-annual" : String) ≠ "annual" := by decide
  have h2 : ("quarter" : String) ≠ "annual" := by decide
  have h3 : ("quarter" : String) ≠ "semi-annual" := by decide
  rcases hfreq with ⟨hf, hp⟩ | ⟨hf, hp⟩ | ⟨hf, hp⟩ <;> subst hf <;> subst hp <;>
    cases pay_now <;> simp [pv_stock_constant_growth, h1, h2, h3]

/-! ### Claim C5 -/

/-- Claim C5: a frequency outside the recognized set makes `bond_value`,
`calculate_realized_yield` and `pv_stock_constant_growth` fail immediately
with the `ValueError` message, independently of every numeric argument (so
before any computation, and never silently defaulted); a frequency inside the
respective set never produces that error: the two pricing functions return a
value, and `calculate_realized_yield` can only fail with one of the
root-finder's own errors. -/
theorem C5_invalid_frequency_rejected (F c cy : K) (n hold : ℕ) (fy y : K)
    (dividend g d : K) (pay_now : Bool) (freq : String) :
    (freq ∉ ["annual", "semi-annual"] →
      bond_value F c n y freq = .error freqErrMsg ∧
      calculate_realized_yield F c cy n hold fy freq = .error freqErrMsg) ∧
    (freq ∉ ["annual", "semi-annual", "quarter"] →
      pv_stock_constant_growth dividend g d pay_now freq = .error payFreqErrMsg) ∧
    (freq ∈ ["annual", "semi-annual"] →
      (∃ v, bond_value F c n y freq = .ok v) ∧
      ∀ e, calculate_realized_yield F c cy n hold fy freq = .error e →
        e = "Failed to converge." ∨ e = "Derivative was zero.") ∧
    (freq ∈ ["annual", "semi-annual", "quarter"] →
      ∃ v, pv_stock_constant_growth dividend g d pay_now freq = .ok v) := by
  refine ⟨fun hmem => ⟨?_, ?_⟩, fun hmem => ?_, fun hmem => ⟨?_, ?_⟩,
    fun hmem => ?_⟩
  · simp [bond_value, hmem]
  · simp [calculate_realized_yield, hmem]
  · simp [pv_stock_constant_growth, hmem]
  · have hfq : freq = "annual" ∨ freq = "semi-annual" := by simpa using hmem
    rcases hfq with rfl | rfl
    · exact ⟨_, bond_value_valid (Or.inl ⟨rfl, rfl⟩) F c n y⟩
    · exact ⟨_, bond_value_valid (Or.inr ⟨rfl, rfl⟩) F c n y⟩
  · intro e herr
    have hfq : freq = "annual" ∨ freq = "semi-annual" := by simpa using hmem
    rcases hfq with rfl | rfl
    · obtain ⟨ip, sp, _, _, heq⟩ :=
        calculate_realized_yield_eq (Or.inl ⟨rfl, rfl⟩) F c cy n hold fy
      rw [heq] at herr
      exact secantSolve_pure_error herr
    · obtain ⟨ip, sp, _, _, heq⟩ :=
        calculate_realized_yield_eq (Or.inr ⟨rfl, rfl⟩) F c cy n hold fy
      rw [heq] at herr
      exact secantSolve_pure_error herr
  · have hfq : freq = "annual" ∨ freq = "semi-annual" ∨ freq = "quarter" := by
      simpa using hmem
    rcases hfq with rfl | rfl | rfl
    · exact ⟨_, pv_stock_constant_growth_valid (Or.inl ⟨rfl, rfl⟩) dividend g d pay_now⟩
    · exact ⟨_, pv_stock_constant_growth_valid (Or.inr (Or.inl ⟨rfl, rfl⟩)) dividend g d pay_now⟩
    · exact ⟨_, pv_stock_constant_growth_valid (Or.inr (Or.inr ⟨rfl, rfl⟩)) dividend g d pay_now⟩

/-- Concrete instances of `C5_invalid_frequency_rejected`, at the frequency
`monthly` (rejected everywhere) and at recognized frequencies. -/
theorem C5_witness :
    (bond_value (1000 : ℚ) (12 / 100) 20 (16 / 100) "monthly" = .error freqErrMsg ∧
      calculate_realized_yield (1000 : ℚ) (12 / 100) (8 / 100) 20 2 (7 / 100) "monthly" =
        .error freqErrMsg) ∧
    pv_stock_constant_growth (22 / 100 : ℚ) (4 / 1000) (16 / 100) false "monthly" =
      .error payFreqErrMsg ∧
    (∃ v, bond_value (1000 : ℚ) (12 / 100) 20 (16 / 100) "annual" = .ok v) ∧
    (∃ v, pv_stock_constant_growth (22 / 100 : ℚ) (4 / 1000) (16 / 100) false "quarter" =
      .ok v) :=
  ⟨(C5_invalid_frequency_rejected 1000 (12 / 100) (8 / 100) 20 2 (7 / 100)
      (16 / 100) (22 / 100 : ℚ) (4 / 1000) (16 / 100) false "monthly").1 (by decide),
    (C5_invalid_frequency_rejected 1000 (12 / 100) (8 / 100) 20 2 (7 / 100)
      (16 / 100) (22 / 100 : ℚ) (4 / 1000) (16 / 100) false "monthly").2.1 (by decide),
    ((C5_invalid_frequency_rejected 1000 (12 / 100) (8 / 100) 20 2 (7 / 100)
      (16 / 100) (22 / 100 : ℚ) (4 / 1000) (16 / 100) false "annual").2.2.1 (by decide)).1,
    (C5_invalid_frequency_rejected 1000 (12 / 100) (8 / 100) 20 2 (7 / 100)
      (16 / 100) (22 / 100 : ℚ) (4 / 1000) (16 / 100) false "quarter").2.2.2 (by decide)⟩

/-! ### Claim C6 -/

/-- Claim C6: with the spec-modelled root-finder, a failure of the iteration
(non-convergence, zero derivative, or a residual error) surfaces as an
`.error` of `calculate_ytm` / `calculate_realized_yield`, and a partial value
is never returned: every `.ok` value of either function satisfies
`ConvergedStep`, i.e. it passed the solver's convergence test on the
function's own residual. -/
theorem C6_nonconvergence_is_error (bp F c cy : K) (n hold : ℕ) (fy guess : K)
    (freq : String) (p : ℕ)
    (hfreq : freq = "annual" ∧ p = 1 ∨ freq = "semi-annual" ∧ p = 2) :
    (∀ e, newtonSolve (ytmResidual bp F c n freq) guess = .error e →
      calculate_ytm bp F c n freq guess = .error e) ∧
    (∀ v, calculate_ytm bp F c n freq guess = .ok v →
      ConvergedStep (ytmResidual bp F c n freq) newtonTol v) ∧
    (∀ ip sp, bond_value F c n cy freq = .ok ip →
      bond_value F c (n - hold) fy freq = .ok sp →
      ∀ e, newtonSolve (fun r => .ok (realizedResidual ip sp (c * F / (p : K)) p
          (hold * p) r)) cy = .error e →
        calculate_realized_yield F c cy n hold fy freq = .error e) ∧
    (∀ v, calculate_realized_yield F c cy n hold fy freq = .ok v →
      ∃ ip sp, bond_value F c n cy freq = .ok ip ∧
        bond_value F c (n - hold) fy freq = .ok sp ∧
        ConvergedStep (fun r => .ok (realizedResidual ip sp (c * F / (p : K)) p
          (hold * p) r)) newtonTol v) := by
  obtain ⟨ip, sp, hip, hsp, heq⟩ := calculate_realized_yield_eq hfreq F c cy n hold fy
  refine ⟨fun e h => h, fun v h => secantSolve_ok_converged h, ?_, ?_⟩
  · intro ip' sp' hip' hsp' e herr
    obtain rfl : ip' = ip := Except.ok.inj (hip'.symm.trans hip)
    obtain rfl : sp' = sp := Except.ok.inj (hsp'.symm.trans hsp)
    rw [heq]
    exact herr
  · intro v hok
    rw [heq] at hok
    exact ⟨ip, sp, hip, hsp, secantSolve_ok_converged hok⟩

/-- Concrete instance of `C6_nonconvergence_is_error`: on a constant residual
the solver fails (zero derivative), and both functions surface that exact
error instead of a value. -/
theorem C6_witness :
    newtonSolve (ytmResidual (1000 : ℚ) 1000 0 0 "annual") (5 / 100) =
      .error "Derivative was zero." ∧
    calculate_ytm (1000 : ℚ) 1000 0 0 "annual" (5 / 100) =
      .error "Derivative was zero." ∧
    calculate_realized_yield (1000 : ℚ) 0 0 0 0 0 "annual" =
      .error "Derivative was zero." := by
  have hres : ∀ x : ℚ, ytmResidual (1000 : ℚ) 1000 0 0 "annual" x = .ok 0 := by
    intro x
    norm_num [ytmResidual, bond_value, Except.map]
  have hsolve : newtonSolve (ytmResidual (1000 : ℚ) 1000 0 0 "annual") (5 / 100) =
      .error "Derivative was zero." :=
    secantSolve_const hres _ _ _ (by norm_num [newtonMaxIter])
  have hip : bond_value (1000 : ℚ) 0 0 0 "annual" = .ok 1000 := by
    norm_num [bond_value]
  have hres2 : ∀ x : ℚ, (Except.ok (realizedResidual (1000 : ℚ) 1000
      (0 * 1000 / ((1 : ℕ) : ℚ)) 1 (0 * 1) x) : Except String ℚ) = .ok 0 :=
    fun x => by norm_num [realizedResidual]
  have hrsolve : newtonSolve (fun r => .ok (realizedResidual (1000 : ℚ) 1000
      (0 * 1000 / ((1 : ℕ) : ℚ)) 1 (0 * 1) r)) 0 = .error "Derivative was zero." :=
    secantSolve_const hres2 _ _ _ (by norm_num [newtonMaxIter])
  exact ⟨hsolve,
    (C6_nonconvergence_is_error (1000 : ℚ) 1000 0 0 0 0 0 (5 / 100) "annual" 1
      (Or.inl ⟨rfl, rfl⟩)).1 _ hsolve,
    (C6_nonconvergence_is_error (1000 : ℚ) 1000 0 0 0 0 0 (5 / 100) "annual" 1
      (Or.inl ⟨rfl, rfl⟩)).2.2.1 1000 1000 hip hip _ hrsolve⟩

/-! ### Claim C10 -/

/-- Claim C10: `calculate_ytm` performs no frequency validation of its own,
yet an unrecognized frequency still fails with the `ValueError` raised by
`bond_value` the first time the root-finder evaluates the residual. -/
theorem C10_calculate_ytm_propagates_invalid_frequency (bp F c : K) (n : ℕ)
    (freq : String) (guess : K) (hfreq : freq ∉ ["annual", "semi-annual"]) :
    calculate_ytm bp F c n freq guess = .error freqErrMsg := by
  have hres : ytmResidual bp F c n freq guess = .error freqErrMsg := by
    simp [ytmResidual, bond_value, hfreq, Except.map]
  exact secantSolve_error_start hres (by norm_num [newtonMaxIter])

/-- Concrete instance of `C10_calculate_ytm_propagates_invalid_frequency`. -/
theorem C10_witness :
    calculate_ytm (77485 / 100 : ℚ) 1000 (12 / 100) 15 "monthly" (5 / 100) =
      .error freqErrMsg :=
  C10_calculate_ytm_propagates_invalid_frequency (77485 / 100) 1000 (12 / 100)
    15 "monthly" (5 / 100) (by decide)

/-! ### Claim C3 -/

/-- Appending one growth entry to the sequence ADDS one more contribution to
the accumulated present value: the discounted dividend if the new period is
still before the perpetuity start, and the perpetuity formula term otherwise. -/
lemma pvVaryingGo_append (d g : K) (Y : ℕ) : ∀ (gs : List K) (div : K) (t : ℕ),
    pvVaryingGo d Y div t (gs ++ [g]) =
      pvVaryingGo d Y div t gs +
        (if t + gs.length < Y then
          div * (gs.map (fun x => 1 + x)).prod * (1 + g) / (1 + d) ^ (t + gs.length)
        else
          div * (gs.map (fun x => 1 + x)).prod * (1 + g) / (d - g) /
            (1 + d) ^ (t + gs.length - 1))
  | [], div, t => by
    simp [pvVaryingGo]
  | a :: gs, div, t => by
    have ih := pvVaryingGo_append d g Y gs (div * (1 + a)) (t + 1)
    have harith : t + 1 + gs.length = t + gs.length + 1 := by omega
    rw [harith, mul_assoc div (1 + a) (gs.map (fun x => 1 + x)).prod] at ih
    simp only [List.cons_append, pvVaryingGo, List.map_cons, List.prod_cons,
      List.length_cons, List.append_eq]
    rw [← Nat.add_assoc, ih, ← add_assoc]

/-- Claim C3 fails as stated: with trailing entries past the perpetuity start
period, the perpetuity contributions are ACCUMULATED (`pv +=`), not
overwritten.  With `last_dividend = 1`, `discount_rate = 1/5`,
`growth_rates = [1/20, 1/20]` and perpetuity start period `1`, the code
returns `105/8` (the sum of both periods' perpetuity terms, `7 + 49/8`),
whereas the claimed last-qualifying-period-wins semantics would return
`49/8`. -/
theorem C3_counterexample :
    pv_stock_varying_growth_rate (1 : ℚ) (1 / 5) [1 / 20, 1 / 20] 1 = 105 / 8 ∧
    pv_stock_varying_last_wins (1 : ℚ) (1 / 5) [1 / 20, 1 / 20] 1 = 49 / 8 ∧
    (105 / 8 : ℚ) ≠ 49 / 8 := by
  refine ⟨?_, ?_, by norm_num⟩ <;>
    norm_num [pv_stock_varying_growth_rate, pv_stock_varying_last_wins,
      pvVaryingGo, pvVaryingLastWinsGo]

/-- Claim C3, amended: when `growthRates` has more entries than needed,
`pv_stock_varying_growth_rate` still executes the perpetuity formula for
every trailing entry, but each later entry's perpetuity contribution is ADDED
to the accumulated present value rather than overwriting it: appending a
trailing entry `g` (at 1-based period `gs.length + 1 ≥ perpetuityStartPeriod`)
increases the result by exactly that entry's perpetuity term
`divN / (discountRate - g) / (1 + discountRate) ^ gs.length`, where `divN` is
the dividend compounded through all entries. -/
theorem C3_trailing_entry_accumulates (div d g : K) (gs : List K) (Y : ℕ)
    (hY : Y ≤ gs.length + 1) :
    pv_stock_varying_growth_rate div d (gs ++ [g]) Y =
      pv_stock_varying_growth_rate div d gs Y +
        div * (gs.map (fun x => 1 + x)).prod * (1 + g) / (d - g) /
          (1 + d) ^ gs.length := by
  unfold pv_stock_varying_growth_rate
  rw [pvVaryingGo_append, if_neg (by omega : ¬ (1 + gs.length < Y)),
    Nat.add_sub_cancel_left]

/-- Concrete instance of `C3_trailing_entry_accumulates`. -/
theorem C3_witness :
    pv_stock_varying_growth_rate (1 : ℚ) (1 / 5) ([1 / 20] ++ [1 / 20]) 1 =
      pv_stock_varying_growth_rate (1 : ℚ) (1 / 5) [1 / 20] 1 +
        1 * (([1 / 20] : List ℚ).map (fun x => 1 + x)).prod * (1 + 1 / 20) /
          (1 / 5 - 1 / 20) / (1 + 1 / 5) ^ ([1 / 20] : List ℚ).length :=
  C3_trailing_entry_accumulates 1 (1 / 5) (1 / 20) [1 / 20] 1 (by simp)

/-! ### Claim C7 -/

/-- Claim C7: for a recognized payment frequency with `p ∈ {1, 2, 4}` periods
per year and per-period rates `g = annualGrowthRate / p`,
`d = annualDiscountRate / p` with `d ≠ g`, `pv_stock_constant_growth` returns
`dividend * (1 + g) / (d - g)` when `pay_now` is set and
`dividend / (d - g)` otherwise. -/
theorem C7_pv_constant_growth_formula (dividend g d : K) (pay_now : Bool)
    (freq : String) (p : K)
    (hfreq : freq = "annual" ∧ p = 1 ∨ freq = "semi-annual" ∧ p = 2 ∨
      freq = "quarter" ∧ p = 4)
    (hne : d / p ≠ g / p) :
    pv_stock_constant_growth dividend g d pay_now freq =
      .ok (if pay_now then dividend * (1 + g / p) / (d / p - g / p)
        else dividend / (d / p - g / p)) :=
  pv_stock_constant_growth_valid hfreq dividend g d pay_now

/-- Concrete instance of `C7_pv_constant_growth_formula` (the spec's quarterly
example, value `220/39 ≈ 5.64`). -/
theorem C7_witness :
    pv_stock_constant_growth (22 / 100 : ℚ) (4 / 1000) (16 / 100) false "quarter" =
      .ok (if false then
          (22 / 100 : ℚ) * (1 + (4 / 1000) / 4) / ((16 / 100) / 4 - (4 / 1000) / 4)
        else (22 / 100 : ℚ) / ((16 / 100) / 4 - (4 / 1000) / 4)) :=
  C7_pv_constant_growth_formula (22 / 100) (4 / 1000) (16 / 100) false "quarter" 4
    (Or.inr (Or.inr ⟨rfl, rfl⟩)) (by norm_num)

/-! ### Claim C8 -/

/-- Claim C8: `optimal_weight_allocation` returns exactly the closed-form
tangency-portfolio weight `w1` together with `w2 = 1 - w1`, so the two
weights always sum to `1` exactly; no bounds are imposed on either weight. -/
theorem C8_optimal_weights (r1 r2 s1 s2 rho rf : K)
    (hden : s1 ^ 2 * (r2 - rf) + s2 ^ 2 * (r1 - rf) -
      s1 * s2 * rho * ((r1 - rf) + (r2 - rf)) ≠ 0) :
    optimal_weight_allocation r1 r2 s1 s2 rho rf =
      ((s2 ^ 2 * (r1 - rf) - s1 * s2 * rho * (r2 - rf)) /
        (s1 ^ 2 * (r2 - rf) + s2 ^ 2 * (r1 - rf) -
          s1 * s2 * rho * ((r1 - rf) + (r2 - rf))),
       1 - (s2 ^ 2 * (r1 - rf) - s1 * s2 * rho * (r2 - rf)) /
        (s1 ^ 2 * (r2 - rf) + s2 ^ 2 * (r1 - rf) -
          s1 * s2 * rho * ((r1 - rf) + (r2 - rf)))) ∧
    (optimal_weight_allocation r1 r2 s1 s2 rho rf).1 +
      (optimal_weight_allocation r1 r2 s1 s2 rho rf).2 = 1 := by
  constructor
  · rfl
  · simp only [optimal_weight_allocation]
    ring

/-- Concrete instance of `C8_optimal_weights` (the notebook's own inputs). -/
theorem C8_witness :
    (optimal_weight_allocation (43381 / 1000000 : ℚ) (96887 / 1000000)
        (36666 / 1000000) (151002 / 1000000) (4155 / 100000) (1 / 50)).1 +
      (optimal_weight_allocation (43381 / 1000000 : ℚ) (96887 / 1000000)
        (36666 / 1000000) (151002 / 1000000) (4155 / 100000) (1 / 50)).2 = 1 :=
  (C8_optimal_weights (43381 / 1000000) (96887 / 1000000) (36666 / 1000000)
    (151002 / 1000000) (4155 / 100000) (1 / 50) (by norm_num)).2

end BondStock
